import Mathlib

/-!
Shallow embedding of the hanzoai/cloud LLM inference gateway core
(controllers/model_pricing.go, controllers/model_routes.go,
controllers/openai_api.go, the ModelConfig hot-reload code and the
Anthropic streaming writer, and the ZAP dispatcher), together with
theorems settling the specification claims about it.

Conventions:
- Go float64 values (prices, balances) are modelled as rationals (ℚ);
  Go ints are modelled as ℤ.
- Network calls, the database and the system clock are modelled as
  explicit parameters (`Except`/`Option` results, an integer clock).
- Go maps are modelled either as association lists (for the static
  compiled-in tables, preserving the source text) or as functions
  `String → Option α` (for the mutable runtime tables, where the claims
  are pointwise).
-/

/-- ASCII lowercasing (Go `strings.ToLower` restricted to the ASCII
model names used throughout the gateway). -/
def lowerAscii (s : String) : String :=
  ⟨s.data.map Char.toLower⟩

/-- Per-model pricing in dollars per 1M tokens (Go struct `modelPrice`,
controllers/model_pricing.go). -/
structure ModelPrice where
  inputPerMillion : ℚ
  outputPerMillion : ℚ
deriving DecidableEq, Repr

/-- Amount granted to new users as free credit (Go constant
`StarterCreditDollars = 5.00`, controllers/model_pricing.go). -/
def StarterCreditDollars : ℚ := 5.00

/-- First half of the static pricing table (Go map `modelPricing`,
controllers/model_pricing.go). Keys are lowercase user-facing model
names; the map is split in two halves joined in `modelPricing` purely to
keep elaboration fast. -/
def modelPricingA : List (String × ModelPrice) := [
  ("gpt-4o", ⟨2.50, 10.00⟩),
  ("gpt-4o-mini", ⟨0.15, 0.60⟩),
  ("gpt-4.1", ⟨2.00, 8.00⟩),
  ("gpt-5", ⟨5.00, 15.00⟩),
  ("gpt-5-mini", ⟨1.25, 5.00⟩),
  ("gpt-5-nano", ⟨0.30, 1.20⟩),
  ("gpt-5.1-codex-max", ⟨3.00, 12.00⟩),
  ("gpt-5.2", ⟨5.00, 15.00⟩),
  ("gpt-5.2-pro", ⟨10.00, 30.00⟩),
  ("gpt-oss-120b", ⟨0.90, 0.90⟩),
  ("gpt-oss-20b", ⟨0.20, 0.20⟩),
  ("o1", ⟨15.00, 60.00⟩),
  ("o3", ⟨10.00, 40.00⟩),
  ("o3-mini", ⟨1.10, 4.40⟩),
  ("claude-3-5-haiku", ⟨0.80, 4.00⟩),
  ("claude-3-7-sonnet", ⟨3.00, 15.00⟩),
  ("claude-4-1-opus", ⟨15.00, 75.00⟩),
  ("claude-haiku-4-5", ⟨1.00, 5.00⟩),
  ("claude-opus-4", ⟨15.00, 75.00⟩),
  ("claude-opus-4-5", ⟨15.00, 75.00⟩),
  ("claude-opus-4-6", ⟨15.00, 75.00⟩),
  ("claude-sonnet-4", ⟨3.00, 15.00⟩),
  ("claude-sonnet-4-5", ⟨3.00, 15.00⟩),
  ("deepseek-r1-distill-70b", ⟨0.35, 1.20⟩),
  ("llama-3.1-8b", ⟨0.10, 0.10⟩),
  ("llama-3.3-70b", ⟨0.59, 0.79⟩),
  ("mistral-nemo", ⟨0.15, 0.15⟩),
  ("qwen3-32b", ⟨0.20, 0.60⟩),
  ("fireworks/cogito-671b", ⟨3.00, 3.00⟩),
  ("fireworks/deepseek-r1", ⟨3.00, 8.00⟩),
  ("fireworks/deepseek-v3", ⟨0.90, 0.90⟩),
  ("fireworks/deepseek-v3p1", ⟨0.90, 0.90⟩),
  ("fireworks/deepseek-v3p2", ⟨0.90, 0.90⟩),
  ("fireworks/glm-4p7", ⟨1.80, 6.60⟩),
  ("fireworks/glm-5", ⟨3.00, 9.60⟩),
  ("fireworks/glm-5-thinking", ⟨3.00, 9.60⟩),
  ("fireworks/gpt-oss-120b", ⟨0.90, 0.90⟩),
  ("fireworks/gpt-oss-20b", ⟨0.20, 0.20⟩),
  ("fireworks/kimi-k2", ⟨2.00, 8.00⟩),
  ("fireworks/kimi-k2-thinking", ⟨2.00, 8.00⟩),
  ("fireworks/kimi-k2p5", ⟨2.50, 10.00⟩),
  ("fireworks/minimax-m2p5", ⟨1.00, 4.00⟩),
  ("fireworks/mixtral-8x22b", ⟨0.90, 0.90⟩)]

/-- Second half of the static pricing table (Go map `modelPricing`,
controllers/model_pricing.go). -/
def modelPricingB : List (String × ModelPrice) := [
  ("fireworks/qwen3-4b", ⟨0.30, 0.30⟩),
  ("fireworks/qwen3-8b", ⟨0.60, 0.60⟩),
  ("fireworks/qwen3-235b-a22b", ⟨3.60, 3.60⟩),
  ("fireworks/qwen3-coder-30b-a3b", ⟨1.50, 1.50⟩),
  ("fireworks/qwen3-coder-480b", ⟨3.60, 3.60⟩),
  ("fireworks/qwen3-coder-480b-bf16", ⟨4.50, 4.50⟩),
  ("fireworks/qwen3-next-80b-a3b", ⟨2.70, 2.70⟩),
  ("fireworks/qwen3-next-80b-a3b-thinking", ⟨2.70, 2.70⟩),
  ("fireworks/qwen3-vl-30b-a3b", ⟨0.45, 1.80⟩),
  ("fireworks/qwen3-vl-235b", ⟨1.20, 1.20⟩),
  ("openai-direct/gpt-4o", ⟨2.50, 10.00⟩),
  ("openai-direct/gpt-4o-mini", ⟨0.15, 0.60⟩),
  ("openai-direct/gpt-5", ⟨5.00, 15.00⟩),
  ("openai-direct/o3", ⟨10.00, 40.00⟩),
  ("openai-direct/o3-mini", ⟨1.10, 4.40⟩),
  ("zen4", ⟨3.00, 9.60⟩),
  ("zen4-ultra", ⟨3.00, 9.60⟩),
  ("zen4-pro", ⟨2.70, 2.70⟩),
  ("zen4-max", ⟨3.60, 3.60⟩),
  ("zen4-mini", ⟨0.60, 0.60⟩),
  ("zen4-thinking", ⟨2.70, 2.70⟩),
  ("zen4-coder", ⟨3.60, 3.60⟩),
  ("zen4-coder-pro", ⟨4.50, 4.50⟩),
  ("zen4-coder-flash", ⟨1.50, 1.50⟩),
  ("zen3-omni", ⟨1.80, 6.60⟩),
  ("zen3-vl", ⟨0.45, 1.80⟩),
  ("zen3-nano", ⟨0.30, 0.30⟩),
  ("zen3-guard", ⟨0.30, 0.30⟩),
  ("zen3-embedding", ⟨0.39, 0.39⟩),
  ("zen", ⟨3.00, 9.60⟩),
  ("zen-pro", ⟨2.70, 2.70⟩),
  ("zen-max", ⟨3.60, 3.60⟩),
  ("zen-mini", ⟨0.60, 0.60⟩),
  ("zen-ultra", ⟨3.00, 9.60⟩),
  ("zen-coder", ⟨3.60, 3.60⟩),
  ("zen-coder-flash", ⟨1.50, 1.50⟩),
  ("zen-coder-pro", ⟨4.50, 4.50⟩),
  ("zen-thinking", ⟨2.70, 2.70⟩),
  ("zen-vl", ⟨0.45, 1.80⟩),
  ("zen-nano", ⟨0.30, 0.30⟩),
  ("zen-omni", ⟨1.80, 6.60⟩),
  ("zen-guard", ⟨0.30, 0.30⟩),
  ("zen-embedding", ⟨0.39, 0.39⟩)]

/-- Static pricing table (Go map `modelPricing`,
controllers/model_pricing.go). -/
def modelPricing : List (String × ModelPrice) :=
  modelPricingA ++ modelPricingB

/-- DO-AI alias pricing map (Go map `aliasPricing`,
controllers/model_pricing.go): alias key to base pricing key. -/
def aliasPricing : List (String × String) := [
  ("openai/gpt-4o", "gpt-4o"),
  ("openai/gpt-4o-mini", "gpt-4o-mini"),
  ("openai/gpt-5", "gpt-5"),
  ("openai/o3", "o3"),
  ("openai/o3-mini", "o3-mini"),
  ("anthropic/claude-haiku-4-5-20251001", "claude-haiku-4-5"),
  ("anthropic/claude-opus-4-6", "claude-opus-4-6"),
  ("anthropic/claude-sonnet-4-5-20250929", "claude-sonnet-4-5")]

/-- Default price returned for unknown models (the literal in
`getModelPrice`, controllers/model_pricing.go). -/
def defaultModelPrice : ModelPrice := ⟨1.00, 4.00⟩

/-- Price lookup (Go func `getModelPrice`, controllers/model_pricing.go):
lowercase the name, try the direct entry, then the alias target's entry,
then fall back to the default price. -/
def getModelPrice (model : String) : ModelPrice :=
  let m := lowerAscii model
  match modelPricing.lookup m with
  | some price => price
  | none =>
    match aliasPricing.lookup m with
    | some base =>
      match modelPricing.lookup base with
      | some price => price
      | none => defaultModelPrice
    | none => defaultModelPrice

/-- Rounding to the nearest integer, halves away from zero
(Go `math.Round`). -/
def roundHalfAway (q : ℚ) : ℤ :=
  if 0 ≤ q then ⌊q + 1/2⌋ else ⌈q - 1/2⌉

/-- Cost computation in cents (Go func `calculateCostCents`,
controllers/model_pricing.go): dollars from per-million prices, rounded
to cents, with a 1-cent floor on non-zero token usage. -/
def calculateCostCents (model : String) (promptTokens completionTokens : ℤ) : ℤ :=
  let price := getModelPrice model
  let inputCost : ℚ := (promptTokens : ℚ) * price.inputPerMillion / 1000000
  let outputCost : ℚ := (completionTokens : ℚ) * price.outputPerMillion / 1000000
  let totalDollars := inputCost + outputCost
  let costCents := roundHalfAway (totalDollars * 100)
  if costCents ≤ 0 ∧ (0 < promptTokens ∨ 0 < completionTokens) then 1
  else costCents

/-- Specification-side price resolution, written from the spec's words
for comparison with `getModelPrice`: the model's own (lowercased) entry
if present, else the alias target's entry when the model has an
alias-pricing mapping whose target has a price, else the process-wide
default price. -/
def priceSpec (model : String) : ModelPrice :=
  let m := lowerAscii model
  match modelPricing.lookup m with
  | some price => price
  | none =>
    match (aliasPricing.lookup m).bind (fun base => modelPricing.lookup base) with
    | some price => price
    | none => defaultModelPrice

/-- Specification-side cost formula, written from the spec's words for
comparison with `calculateCostCents`: the dollar total
promptTokens*inputPrice/1e6 + completionTokens*outputPrice/1e6 rounded
to cents, with the 1-cent floor applied when that rounding yields 0 or
less on non-zero usage. -/
def costCentsSpec (model : String) (promptTokens completionTokens : ℤ) : ℤ :=
  let price := getModelPrice model
  let dollars : ℚ :=
    (promptTokens : ℚ) * price.inputPerMillion / 1000000 +
    (completionTokens : ℚ) * price.outputPerMillion / 1000000
  let rounded := roundHalfAway (dollars * 100)
  if rounded ≤ 0 ∧ (0 < promptTokens ∨ 0 < completionTokens) then 1
  else rounded

/-- Route entry of the static routing table (Go struct `modelRoute`,
controllers/model_routes.go). -/
structure ModelRoute where
  providerName : String
  upstreamModel : String
  premium : Bool
deriving DecidableEq, Repr

/-- First half of the static routing table (Go map `modelRoutes`,
controllers/model_routes.go): user-facing model name (lowercase) to
provider, upstream model id and premium flag. Split in two halves joined
in `modelRoutes` purely to keep elaboration fast. -/
def modelRoutesA : List (String × ModelRoute) := [
  ("gpt-4o", ⟨"do-ai", "openai-gpt-4o", false⟩),
  ("gpt-4o-mini", ⟨"do-ai", "openai-gpt-4o-mini", false⟩),
  ("gpt-4.1", ⟨"do-ai", "openai-gpt-4.1", false⟩),
  ("gpt-5", ⟨"do-ai", "openai-gpt-5", false⟩),
  ("gpt-5-mini", ⟨"do-ai", "openai-gpt-5-mini", false⟩),
  ("gpt-5-nano", ⟨"do-ai", "openai-gpt-5-nano", false⟩),
  ("gpt-5.1-codex-max", ⟨"do-ai", "openai-gpt-5.1-codex-max", false⟩),
  ("gpt-5.2", ⟨"do-ai", "openai-gpt-5.2", false⟩),
  ("gpt-5.2-pro", ⟨"do-ai", "openai-gpt-5.2-pro", false⟩),
  ("gpt-oss-120b", ⟨"do-ai", "openai-gpt-oss-120b", false⟩),
  ("gpt-oss-20b", ⟨"do-ai", "openai-gpt-oss-20b", false⟩),
  ("o1", ⟨"do-ai", "openai-o1", false⟩),
  ("o3", ⟨"do-ai", "openai-o3", false⟩),
  ("o3-mini", ⟨"do-ai", "openai-o3-mini", false⟩),
  ("claude-3-5-haiku", ⟨"do-ai", "anthropic-claude-3.5-haiku", false⟩),
  ("claude-3-7-sonnet", ⟨"do-ai", "anthropic-claude-3.7-sonnet", false⟩),
  ("claude-4-1-opus", ⟨"do-ai", "anthropic-claude-4.1-opus", false⟩),
  ("claude-haiku-4-5", ⟨"do-ai", "anthropic-claude-haiku-4.5", false⟩),
  ("claude-opus-4", ⟨"do-ai", "anthropic-claude-opus-4", false⟩),
  ("claude-opus-4-5", ⟨"do-ai", "anthropic-claude-opus-4.5", false⟩),
  ("claude-opus-4-6", ⟨"do-ai", "anthropic-claude-opus-4.6", false⟩),
  ("claude-sonnet-4", ⟨"do-ai", "anthropic-claude-sonnet-4", false⟩),
  ("claude-sonnet-4-5", ⟨"do-ai", "anthropic-claude-4.5-sonnet", false⟩),
  ("deepseek-r1-distill-70b", ⟨"do-ai", "deepseek-r1-distill-llama-70b", false⟩),
  ("llama-3.1-8b", ⟨"do-ai", "llama3-8b-instruct", false⟩),
  ("llama-3.3-70b", ⟨"do-ai", "llama3.3-70b-instruct", false⟩),
  ("mistral-nemo", ⟨"do-ai", "mistral-nemo-instruct-2407", false⟩),
  ("qwen3-32b", ⟨"do-ai", "alibaba-qwen3-32b", false⟩),
  ("openai/gpt-4o", ⟨"do-ai", "openai-gpt-4o", false⟩),
  ("openai/gpt-4o-mini", ⟨"do-ai", "openai-gpt-4o-mini", false⟩),
  ("openai/gpt-5", ⟨"do-ai", "openai-gpt-5", false⟩),
  ("openai/o3", ⟨"do-ai", "openai-o3", false⟩),
  ("openai/o3-mini", ⟨"do-ai", "openai-o3-mini", false⟩),
  ("anthropic/claude-haiku-4-5-20251001", ⟨"do-ai", "anthropic-claude-haiku-4.5", false⟩),
  ("anthropic/claude-opus-4-6", ⟨"do-ai", "anthropic-claude-opus-4.6", false⟩),
  ("anthropic/claude-sonnet-4-5-20250929", ⟨"do-ai", "anthropic-claude-4.5-sonnet", false⟩),
  ("fireworks/cogito-671b", ⟨"fireworks", "accounts/cogito/models/cogito-671b-v2-p1", true⟩),
  ("fireworks/deepseek-r1", ⟨"fireworks", "accounts/fireworks/models/deepseek-r1-0528", true⟩),
  ("fireworks/deepseek-v3", ⟨"fireworks", "accounts/fireworks/models/deepseek-v3-0324", true⟩),
  ("fireworks/deepseek-v3p1", ⟨"fireworks", "accounts/fireworks/models/deepseek-v3p1", true⟩),
  ("fireworks/deepseek-v3p2", ⟨"fireworks", "accounts/fireworks/models/deepseek-v3p2", true⟩),
  ("fireworks/glm-4p7", ⟨"fireworks", "accounts/fireworks/models/glm-4p7", true⟩),
  ("fireworks/glm-5", ⟨"fireworks", "accounts/fireworks/models/glm-5", true⟩),
  ("fireworks/glm-5-thinking", ⟨"fireworks", "accounts/fireworks/models/glm-5-thinking", true⟩),
  ("fireworks/gpt-oss-120b", ⟨"fireworks", "accounts/fireworks/models/gpt-oss-120b", true⟩),
  ("fireworks/gpt-oss-20b", ⟨"fireworks", "accounts/fireworks/models/gpt-oss-20b", true⟩),
  ("fireworks/kimi-k2", ⟨"fireworks", "accounts/fireworks/models/kimi-k2-instruct-0905", true⟩)]

/-- Second half of the static routing table (Go map `modelRoutes`,
controllers/model_routes.go). -/
def modelRoutesB : List (String × ModelRoute) := [
  ("fireworks/kimi-k2-thinking", ⟨"fireworks", "accounts/fireworks/models/kimi-k2-thinking", true⟩),
  ("fireworks/kimi-k2p5", ⟨"fireworks", "accounts/fireworks/models/kimi-k2p5", true⟩),
  ("fireworks/minimax-m2p5", ⟨"fireworks", "accounts/fireworks/models/minimax-m2p5", true⟩),
  ("fireworks/mixtral-8x22b", ⟨"fireworks", "accounts/fireworks/models/mixtral-8x22b-instruct", true⟩),
  ("fireworks/qwen3-4b", ⟨"fireworks", "accounts/fireworks/models/qwen3-4b", true⟩),
  ("fireworks/qwen3-8b", ⟨"fireworks", "accounts/fireworks/models/qwen3-8b", true⟩),
  ("fireworks/qwen3-235b-a22b", ⟨"fireworks", "accounts/fireworks/models/qwen3-235b-a22b", true⟩),
  ("fireworks/qwen3-coder-30b-a3b", ⟨"fireworks", "accounts/fireworks/models/qwen3-coder-30b-a3b", true⟩),
  ("fireworks/qwen3-coder-480b", ⟨"fireworks", "accounts/fireworks/models/qwen3-coder-480b-a35b-instruct", true⟩),
  ("fireworks/qwen3-coder-480b-bf16", ⟨"fireworks", "accounts/fireworks/models/qwen3-coder-480b-bf16", true⟩),
  ("fireworks/qwen3-next-80b-a3b", ⟨"fireworks", "accounts/fireworks/models/qwen3-next-80b-a3b", true⟩),
  ("fireworks/qwen3-next-80b-a3b-thinking", ⟨"fireworks", "accounts/fireworks/models/qwen3-next-80b-a3b-thinking", true⟩),
  ("fireworks/qwen3-vl-30b-a3b", ⟨"fireworks", "accounts/fireworks/models/qwen3-vl-30b-a3b", true⟩),
  ("fireworks/qwen3-vl-235b", ⟨"fireworks", "accounts/fireworks/models/qwen3-vl-235b-a22b-instruct", true⟩),
  ("openai-direct/gpt-4o", ⟨"openai-direct", "gpt-4o", true⟩),
  ("openai-direct/gpt-4o-mini", ⟨"openai-direct", "gpt-4o-mini", true⟩),
  ("openai-direct/gpt-5", ⟨"openai-direct", "gpt-5", true⟩),
  ("openai-direct/o3", ⟨"openai-direct", "o3", true⟩),
  ("openai-direct/o3-mini", ⟨"openai-direct", "o3-mini", true⟩),
  ("zen4", ⟨"fireworks", "accounts/fireworks/models/glm-5", true⟩),
  ("zen4-ultra", ⟨"fireworks", "accounts/fireworks/models/glm-5-thinking", true⟩),
  ("zen4-pro", ⟨"fireworks", "accounts/fireworks/models/qwen3-next-80b-a3b", true⟩),
  ("zen4-max", ⟨"fireworks", "accounts/fireworks/models/qwen3-235b-a22b", true⟩),
  ("zen4-mini", ⟨"fireworks", "accounts/fireworks/models/qwen3-8b", true⟩),
  ("zen4-thinking", ⟨"fireworks", "accounts/fireworks/models/qwen3-next-80b-a3b-thinking", true⟩),
  ("zen4-coder", ⟨"fireworks", "accounts/fireworks/models/qwen3-coder-480b-a35b-instruct", true⟩),
  ("zen4-coder-pro", ⟨"fireworks", "accounts/fireworks/models/qwen3-coder-480b-bf16", true⟩),
  ("zen4-coder-flash", ⟨"fireworks", "accounts/fireworks/models/qwen3-coder-30b-a3b", true⟩),
  ("zen3-omni", ⟨"fireworks", "accounts/fireworks/models/glm-4p7", true⟩),
  ("zen3-vl", ⟨"fireworks", "accounts/fireworks/models/qwen3-vl-30b-a3b", true⟩),
  ("zen3-nano", ⟨"fireworks", "accounts/fireworks/models/qwen3-4b", true⟩),
  ("zen3-guard", ⟨"fireworks", "accounts/fireworks/models/qwen3-4b", true⟩),
  ("zen3-embedding", ⟨"openai-direct", "text-embedding-3-large", true⟩),
  ("zen", ⟨"fireworks", "accounts/fireworks/models/glm-5", true⟩),
  ("zen-pro", ⟨"fireworks", "accounts/fireworks/models/qwen3-next-80b-a3b", true⟩),
  ("zen-max", ⟨"fireworks", "accounts/fireworks/models/qwen3-235b-a22b", true⟩),
  ("zen-mini", ⟨"fireworks", "accounts/fireworks/models/qwen3-8b", true⟩),
  ("zen-ultra", ⟨"fireworks", "accounts/fireworks/models/glm-5-thinking", true⟩),
  ("zen-coder", ⟨"fireworks", "accounts/fireworks/models/qwen3-coder-480b-a35b-instruct", true⟩),
  ("zen-coder-flash", ⟨"fireworks", "accounts/fireworks/models/qwen3-coder-30b-a3b", true⟩),
  ("zen-coder-pro", ⟨"fireworks", "accounts/fireworks/models/qwen3-coder-480b-bf16", true⟩),
  ("zen-thinking", ⟨"fireworks", "accounts/fireworks/models/qwen3-next-80b-a3b-thinking", true⟩),
  ("zen-vl", ⟨"fireworks", "accounts/fireworks/models/qwen3-vl-30b-a3b", true⟩),
  ("zen-nano", ⟨"fireworks", "accounts/fireworks/models/qwen3-4b", true⟩),
  ("zen-omni", ⟨"fireworks", "accounts/fireworks/models/glm-4p7", true⟩),
  ("zen-guard", ⟨"fireworks", "accounts/fireworks/models/qwen3-4b", true⟩),
  ("zen-embedding", ⟨"openai-direct", "text-embedding-3-large", true⟩)]

/-- Static routing table (Go map `modelRoutes`,
controllers/model_routes.go). -/
def modelRoutes : List (String × ModelRoute) :=
  modelRoutesA ++ modelRoutesB

/-- Route lookup (Go func `resolveModelRoute`,
controllers/model_routes.go): case-insensitive; `none` when the model is
not in the routing table. -/
def resolveModelRoute (model : String) : Option ModelRoute :=
  modelRoutes.lookup (lowerAscii model)

/-- Cached balance entry (Go struct `balanceEntry`,
controllers/openai_api.go): a balance in dollars plus the time it was
fetched, relative to an abstract integer clock. -/
structure BalanceEntry where
  balance : ℚ
  fetchedAt : ℤ
deriving DecidableEq, Repr

/-- Result of `getUserBalance`: the balance in dollars and the updated
cache. -/
structure BalanceResult where
  balance : ℚ
  cache : String → Option BalanceEntry

/-- Balance lookup with a short-TTL read-through cache (Go func
`getUserBalance`, controllers/openai_api.go). The Commerce HTTP call is
modelled by `fetchCents : Except String ℤ`, whose error case covers a
request error, a non-200 status, and an unparseable body alike; `now`
and `ttl` model `time.Now` and `balanceCacheTTL`. A fresh cache entry is
served without consulting Commerce; otherwise a missing endpoint or a
failed call is an error, and a successful call caches and returns
cents/100 dollars. -/
def getUserBalance (cache : String → Option BalanceEntry) (now ttl : ℤ)
    (commerceEndpoint : String) (fetchCents : Except String ℤ)
    (userId : String) : Except String BalanceResult :=
  match cache userId with
  | some entry =>
    if now - entry.fetchedAt < ttl then
      .ok ⟨entry.balance, cache⟩
    else
      getUserBalanceFetch cache now commerceEndpoint fetchCents userId
  | none => getUserBalanceFetch cache now commerceEndpoint fetchCents userId
where
  getUserBalanceFetch (cache : String → Option BalanceEntry) (now : ℤ)
      (commerceEndpoint : String) (fetchCents : Except String ℤ)
      (userId : String) : Except String BalanceResult :=
    if commerceEndpoint = "" then
      .error "commerceEndpoint is not configured"
    else
      match fetchCents with
      | .error e => .error e
      | .ok cents =>
        let balanceDollars : ℚ := (cents : ℚ) / 100
        .ok ⟨balanceDollars,
          fun k => if k = userId then some ⟨balanceDollars, now⟩ else cache k⟩

/-- Provider record as far as the admission path inspects it (Go struct
`object.Provider`; only the fields read by `resolveProviderForUser` and
`ChatCompletions` are modelled). -/
structure Provider where
  name : String
  category : String
deriving DecidableEq, Repr

/-- Errors produced by the admission path (the distinct error returns of
Go func `resolveProviderForUser`, controllers/openai_api.go). -/
inductive ResolveError where
  | modelNotFound (model : String)
  | providerLookupFailed (msg : String)
  | providerNotConfigured (name : String)
  | balanceCheckFailed (msg : String)
  | insufficientBalance (balance : ℚ)
  | premiumNeedsPaidBalance (balance : ℚ)
deriving DecidableEq, Repr

/-- Successful admission: provider, user balance and translated upstream
model name (Go func `resolveProviderForUser` returns
`(provider, user, route.upstreamModel)` and stores the balance on the
user). -/
structure Resolved where
  provider : Provider
  balance : ℚ
  upstreamModel : String
deriving DecidableEq, Repr

/-- Shared JWT/IAM-key admission logic (Go func `resolveProviderForUser`,
controllers/openai_api.go). The database provider lookup
(`object.GetModelProviderByName`) is modelled by `providerLookup`; the
balance fetch (`getUserBalance`) is modelled by its `Except` result
`balanceResult`. Order of checks follows the source: route lookup,
provider lookup, balance fetch, the `balance <= 0` rejection, then the
premium starter-credit rejection `route.premium && balance <=
StarterCreditDollars`. -/
def resolveProviderForUser (requestedModel : String)
    (providerLookup : String → Except String (Option Provider))
    (balanceResult : Except String ℚ) : Except ResolveError Resolved :=
  match resolveModelRoute requestedModel with
  | none => .error (.modelNotFound requestedModel)
  | some route =>
    match providerLookup route.providerName with
    | .error e => .error (.providerLookupFailed e)
    | .ok none => .error (.providerNotConfigured route.providerName)
    | .ok (some provider) =>
      match balanceResult with
      | .error e => .error (.balanceCheckFailed e)
      | .ok balance =>
        if balance ≤ 0 then
          .error (.insufficientBalance balance)
        else if route.premium ∧ balance ≤ StarterCreditDollars then
          .error (.premiumNeedsPaidBalance balance)
        else
          .ok ⟨provider, balance, route.upstreamModel⟩

/-- Usage record (Go struct `usageRecord`, controllers/openai_api.go). -/
structure UsageRecord where
  owner : String
  user : String
  organization : String
  model : String
  provider : String
  promptTokens : ℤ
  completionTokens : ℤ
  totalTokens : ℤ
  cost : ℚ
  currency : String
  premium : Bool
  stream : Bool
  status : String
  errorMsg : String
  clientIP : String
  requestID : String
deriving DecidableEq, Repr

/-- Payload of the POST to the Commerce usage endpoint (the map literal
built inside Go func `recordUsage`, controllers/openai_api.go). -/
structure UsageSinkPayload where
  user : String
  currency : String
  amount : ℤ
  model : String
  provider : String
  promptTokens : ℤ
  completionTokens : ℤ
  totalTokens : ℤ
  requestId : String
  premium : Bool
  stream : Bool
  status : String
  clientIp : String
deriving DecidableEq, Repr

/-- Usage recorder (Go func `recordUsage`, controllers/openai_api.go):
the record is dropped (`none`) when no Commerce endpoint is configured
or when the record's status is not "success"; otherwise the payload
delivered to the accounting sink is built, with the cost computed from
the pricing table at record time. Transport failures after this point
are swallowed by the Go code and do not affect what is submitted. -/
def recordUsage (commerceEndpoint : String) (record : UsageRecord) :
    Option UsageSinkPayload :=
  if commerceEndpoint = "" then none
  else if record.status ≠ "success" then none
  else
    some
      { user := record.user
        currency := "usd"
        amount := calculateCostCents record.model record.promptTokens record.completionTokens
        model := record.model
        provider := record.provider
        promptTokens := record.promptTokens
        completionTokens := record.completionTokens
        totalTokens := record.totalTokens
        requestId := record.requestID
        premium := record.premium
        stream := record.stream
        status := record.status
        clientIp := record.clientIP }

/-- Usage record built by the `ChatCompletions` handler when the
upstream model call fails (the literal passed to `recordUsage` at the
error branch of Go func `ChatCompletions`, controllers/openai_api.go):
`Status` is "error" and the token/cost fields keep their zero values. -/
def chatCompletionsErrorRecord (owner name model provider : String)
    (premium stream : Bool) (errMsg clientIP requestId : String) :
    UsageRecord :=
  { owner := owner
    user := owner ++ "/" ++ name
    organization := ""
    model := model
    provider := provider
    promptTokens := 0
    completionTokens := 0
    totalTokens := 0
    cost := 0
    currency := ""
    premium := premium
    stream := stream
    status := "error"
    errorMsg := errMsg
    clientIP := clientIP
    requestID := requestId }

/-- Pointwise update of a map modelled as a function (Go map
assignment `m[k] = v`). -/
def mapUpd {α : Type} (m : String → Option α) (k : String) (v : α) :
    String → Option α :=
  fun x => if x = k then some v else m x

/-- Route entry built by the YAML config loader (the `modelRoute` struct
variant with listing metadata used by `ModelConfig.applyConfig`,
src/unnamed/part_015 together with its definition in
src/unnamed/part_013). -/
structure ConfigRoute where
  providerName : String
  upstreamModel : String
  premium : Bool
  hidden : Bool
  ownedBy : String
deriving DecidableEq, Repr

/-- Feature flags (Go struct `FeatureFlags`, src/unnamed/part_015). -/
structure FeatureFlags where
  liveMode : Bool
  premiumGate : Bool
  starterCredit : ℚ
deriving DecidableEq, Repr

/-- Per-model pricing definition in the YAML file (Go struct
`ModelPriceDef`, src/unnamed/part_015): supports both the
input/output and the input_per_million/output_per_million spellings,
absent fields being zero. -/
structure ModelPriceDef where
  inputPerMillion : ℚ
  outputPerMillion : ℚ
  input : ℚ
  output : ℚ
deriving DecidableEq, Repr

/-- Model entry in the YAML file (Go struct `ModelDef`,
src/unnamed/part_015). -/
structure ModelDef where
  provider : String
  upstream : String
  premium : Bool
  hidden : Bool
  ownedBy : String
  identityPrompt : String
  aliasOf : String
  aliasPricing : String
  pricingOnly : Bool
  pricing : Option ModelPriceDef
deriving DecidableEq, Repr

/-- Parsed YAML config file (Go struct `ModelConfigFile`,
src/unnamed/part_015); the YAML model map is modelled as an association
list in iteration order. -/
structure ModelConfigFile where
  version : ℤ
  pricingURL : String
  pricingTTLStr : String
  features : FeatureFlags
  defaultPricing : ModelPriceDef
  models : List (String × ModelDef)

/-- Runtime state served by the `ModelConfig` singleton (Go struct
`ModelConfig`, src/unnamed/part_015): the maps guarded by its
reader/writer lock plus the live-refresh settings. -/
structure MCState where
  routes : String → Option ConfigRoute
  pricing : String → Option ModelPrice
  prompts : String → Option String
  features : FeatureFlags
  defaults : ModelPrice
  pricingURL : String
  pricingTTL : ℤ
  lastPricingAt : ℤ

/-- Price extraction from a YAML pricing definition (the per-entry logic
inside `ModelConfig.applyConfig`, src/unnamed/part_015): the
input/output spelling wins when positive, else the per-million
spelling. -/
def priceFromDef (p : ModelPriceDef) : ModelPrice :=
  ⟨if 0 < p.input then p.input else p.inputPerMillion,
   if 0 < p.output then p.output else p.outputPerMillion⟩

/-- Intermediate result of the first pass of `ModelConfig.applyConfig`
(the local maps `routes`, `pricing`, `prompts` and `aliasPricingMap`
being built before the swap). -/
structure BuiltTables where
  routes : String → Option ConfigRoute
  pricing : String → Option ModelPrice
  prompts : String → Option String
  aliases : List (String × String)

/-- First pass of `ModelConfig.applyConfig` (src/unnamed/part_015) over
one model entry: build the route (unless pricing-only), the direct price
entry, the alias-pricing pair and the identity prompt. -/
def applyConfigStep (acc : BuiltTables) (entry : String × ModelDef) : BuiltTables :=
  let key := lowerAscii entry.1
  let d := entry.2
  let acc :=
    if d.pricingOnly then acc
    else { acc with
      routes := mapUpd acc.routes key
        ⟨d.provider, d.upstream, d.premium, d.hidden, d.ownedBy⟩ }
  let acc :=
    match d.pricing with
    | some p => { acc with pricing := mapUpd acc.pricing key (priceFromDef p) }
    | none => acc
  let acc :=
    if d.aliasPricing ≠ "" then
      { acc with aliases := acc.aliases ++ [(key, lowerAscii d.aliasPricing)] }
    else acc
  if d.identityPrompt ≠ "" then
    { acc with prompts := mapUpd acc.prompts key d.identityPrompt.trim }
  else acc

/-- Both passes of the map building in `ModelConfig.applyConfig`
(src/unnamed/part_015): the first pass builds routes, direct prices,
prompts and the alias list from scratch; the second pass fills each
priced alias from its base when the alias has no direct price. -/
def buildTables (models : List (String × ModelDef)) : BuiltTables :=
  let first := models.foldl applyConfigStep
    ⟨fun _ => none, fun _ => none, fun _ => none, []⟩
  let pricing := first.aliases.foldl
    (fun pm ab =>
      match pm ab.1 with
      | some _ => pm
      | none =>
        match pm ab.2 with
        | some basePrice => mapUpd pm ab.1 basePrice
        | none => pm)
    first.pricing
  { first with pricing := pricing }

/-- Six hours in nanoseconds (the fallback `pricingTTL` in
`ModelConfig.applyConfig`, src/unnamed/part_015). -/
def sixHoursNs : ℤ := 21600000000000

/-- Config application (Go func `ModelConfig.applyConfig`,
src/unnamed/part_015): builds all maps fully, resolves the service
settings and the default price, then installs everything under the
write lock. The `PRICING_SERVICE_URL` environment override is the
`envPricingURL` parameter ("" meaning unset) and Go's
`time.ParseDuration` is the `parseDuration` parameter (`none` meaning a
parse error). This function cannot fail (the Go version always returns
nil). -/
def applyConfig (st : MCState) (envPricingURL : String)
    (parseDuration : String → Option ℤ) (file : ModelConfigFile) : MCState :=
  let t := buildTables file.models
  let pricingURL := if envPricingURL ≠ "" then envPricingURL else file.pricingURL
  let pricingTTL :=
    if file.pricingTTLStr ≠ "" then
      match parseDuration file.pricingTTLStr with
      | some d => d
      | none => sixHoursNs
    else sixHoursNs
  let defaults : ModelPrice :=
    ⟨if 0 < file.defaultPricing.inputPerMillion then
        file.defaultPricing.inputPerMillion else 1.00,
      if 0 < file.defaultPricing.outputPerMillion then
        file.defaultPricing.outputPerMillion else 4.00⟩
  { st with
    routes := t.routes
    pricing := t.pricing
    prompts := t.prompts
    features := file.features
    defaults := defaults
    pricingURL := pricingURL
    pricingTTL := pricingTTL }

/-- File loading (Go func `ModelConfig.loadFromFile`,
src/unnamed/part_015): `readAndParse` models `os.ReadFile` followed by
`yaml.Unmarshal`, whose error case covers an unreadable file and a
malformed one alike; on error nothing is applied. -/
def loadFromFile (st : MCState) (envPricingURL : String)
    (parseDuration : String → Option ℤ)
    (readAndParse : Except String ModelConfigFile) :
    Except String MCState :=
  match readAndParse with
  | .error e => .error e
  | .ok file => .ok (applyConfig st envPricingURL parseDuration file)

/-- Reload (Go func `ModelConfig.Reload`, src/unnamed/part_015): re-read
the config file; the optional background pricing fetch it spawns is a
separate step (`fetchLivePricing`). -/
def MCState.reload (st : MCState) (envPricingURL : String)
    (parseDuration : String → Option ℤ)
    (readAndParse : Except String ModelConfigFile) :
    Except String MCState :=
  loadFromFile st envPricingURL parseDuration readAndParse

/-- State actually served after a reload attempt: the Go singleton keeps
its previous maps whenever `Reload` returns an error. -/
def MCState.reloadResult (st : MCState) (envPricingURL : String)
    (parseDuration : String → Option ℤ)
    (readAndParse : Except String ModelConfigFile) : MCState :=
  match st.reload envPricingURL parseDuration readAndParse with
  | .error _ => st
  | .ok st' => st'

/-- Model entry of the live pricing feed response (Go structs
`livePricingResponse`/`livePricingModel`/`livePricingEntry`,
src/worker/src/app.ts section defining `fetchLivePricing`). -/
structure LivePricingModel where
  name : String
  input : ℚ
  output : ℚ
deriving DecidableEq, Repr

/-- Merge step of the live pricing refresh (the loop body inside
`ModelConfig.fetchLivePricing`, src/worker/src/app.ts): a feed model
with a positive input or output price overwrites its (lowercased)
entry; anything else is skipped. -/
def livePricingStep (pm : String → Option ModelPrice)
    (m : LivePricingModel) : String → Option ModelPrice :=
  if 0 < m.input ∨ 0 < m.output then
    mapUpd pm (lowerAscii m.name) ⟨m.input, m.output⟩
  else pm

/-- Live pricing refresh (Go func `ModelConfig.fetchLivePricing`,
src/worker/src/app.ts): `resp` models the feed call, `none` covering a
network error, a non-200 status and an unparseable body alike. An unset
URL, a failed call and an empty model list all leave the state
untouched; otherwise every model in the response with a positive input
or output price overwrites its (lowercased) entry in the pricing map,
and nothing is ever removed. -/
def fetchLivePricing (st : MCState) (now : ℤ)
    (resp : Option (List LivePricingModel)) : MCState :=
  if st.pricingURL = "" then st
  else
    match resp with
    | none => st
    | some ms =>
      if ms.isEmpty then st
      else
        let pricing := ms.foldl livePricingStep st.pricing
        { st with pricing := pricing, lastPricingAt := now }

/-- Concrete runtime state used to instantiate the reload and refresh
theorems at a closed input. -/
def sampleMCState : MCState :=
  ⟨fun _ => none,
   fun k => if k = "gpt-4o" then some ⟨2.50, 10.00⟩ else none,
   fun _ => none,
   ⟨true, true, 5⟩, ⟨1.00, 4.00⟩, "https://pricing.hanzo.ai", sixHoursNs, 0⟩

/-- String prefix test on the character level (Go `bytes.HasPrefix` on
the writer's input chunks). -/
def startsWithStr (s pre : String) : Bool :=
  pre.data.isPrefixOf s.data

/-- Drop a known-length leading part of a string, character-wise (Go
`bytes.TrimPrefix` once the prefix is known to be present). -/
def dropChars (s : String) (n : ℕ) : String :=
  ⟨s.data.drop n⟩

/-- Remove a trailing part when present (Go `bytes.TrimSuffix`). -/
def trimSuffixStr (s suffix : String) : String :=
  if suffix.data.isSuffixOf s.data then
    ⟨s.data.take (s.data.length - suffix.data.length)⟩
  else s

/-- SSE events emitted by the Anthropic adapter, in the order written to
the response (the `writeSSE` calls of `AnthropicWriter.Write` and
`AnthropicWriter.Close`, src/unnamed/part_015). -/
inductive AnthropicEvent where
  | messageStart
  | contentBlockStart
  | contentBlockDelta (text : String)
  | contentBlockStop
  | messageDelta (outputTokens : ℤ)
  | messageStop
deriving DecidableEq, Repr

/-- State of the Anthropic streaming writer (Go struct
`AnthropicWriter`, src/unnamed/part_015), with the SSE events it has
written so far made explicit. -/
structure AnthropicWriterState where
  buffer : List String
  messageBuf : String
  requestID : String
  stream : Bool
  streamSent : Bool
  model : String
  headerSent : Bool
  events : List AnthropicEvent
deriving DecidableEq, Repr

/-- Fresh Anthropic writer as built by the `AnthropicMessages` handler
(src/unnamed/part_015). -/
def AnthropicWriterState.init (requestID model : String) (stream : Bool) :
    AnthropicWriterState :=
  ⟨[], "", requestID, stream, false, model, false, []⟩

/-- Content extraction of `AnthropicWriter.Write` (src/unnamed/part_015):
a chunk wrapped as `event: message` is unwrapped and always accumulated;
a chunk wrapped as `event: reason` is unwrapped but not accumulated; any
other chunk goes through the `Cleaner` (an external component, passed
here as `clean`) and is accumulated when non-empty. Returns the content
and whether it is appended to `MessageBuf`. -/
def anthropicContent (clean : String → String) (p : String) :
    String × Bool :=
  let msgPre := "event: message\ndata: "
  let reasonPre := "event: reason\ndata: "
  if startsWithStr p msgPre then
    (trimSuffixStr (dropChars p msgPre.data.length) "\n\n", true)
  else if startsWithStr p reasonPre then
    (trimSuffixStr (dropChars p reasonPre.data.length) "\n\n", false)
  else
    let c := clean p
    (c, c ≠ "")

/-- One call of `AnthropicWriter.Write` (src/unnamed/part_015): always
record the raw chunk and accumulate content; in streaming mode, a
non-empty content chunk first emits `message_start` and
`content_block_start` when no header has been sent, then emits one
`content_block_delta` and marks the stream as started. -/
def anthropicWrite (clean : String → String) (w : AnthropicWriterState)
    (p : String) : AnthropicWriterState :=
  let c := anthropicContent clean p
  let w := { w with
    buffer := w.buffer ++ [p]
    messageBuf := if c.2 then w.messageBuf ++ c.1 else w.messageBuf }
  if !w.stream then w
  else if c.1 = "" then w
  else
    let hdr : List AnthropicEvent :=
      if !w.headerSent then [.messageStart, .contentBlockStart] else []
    { w with
      headerSent := true
      streamSent := true
      events := w.events ++ hdr ++ [.contentBlockDelta c.1] }

/-- Finalization (Go func `AnthropicWriter.Close`,
src/unnamed/part_015): a no-op for non-streaming writers and for
streams that never emitted content; otherwise emits
`content_block_stop`, `message_delta` carrying the output-token usage,
and `message_stop`, in that order. -/
def anthropicClose (w : AnthropicWriterState)
    (promptTokens completionTokens totalTokens : ℤ) : AnthropicWriterState :=
  if !w.stream then w
  else if !w.streamSent then w
  else
    { w with events := w.events ++
        [.contentBlockStop, .messageDelta completionTokens, .messageStop] }

/-- ZAP request envelope (Go struct `zapRequest`,
controllers/model_routes_test.go ZAP section); `params` is kept as the
raw JSON text. -/
structure ZapRequest where
  method : String
  id : String
  params : String
deriving DecidableEq, Repr

/-- ZAP error response content (Go func `respondZapError`: the id and
the JSON-RPC error code/message it serializes). -/
structure ZapErrorResp where
  id : String
  code : ℤ
  message : String
deriving DecidableEq, Repr

/-- Handler selected by the ZAP dispatcher (the four delegation targets
of `ZapDispatch`: `zapChatCompletions`, `zapMessages`, `zapListModels`,
`zapBalance`); the params each handler receives as its request body are
carried along. -/
inductive ZapHandler where
  | chatCompletions (params : String)
  | chatMessages (params : String)
  | modelsList
  | billingBalance (params : String)
deriving DecidableEq, Repr

/-- ZAP envelope dispatch (Go func `ZapDispatch`,
controllers/model_routes_test.go ZAP section): `body` models
`json.Unmarshal` of the request body, whose error case is a malformed
JSON body (the envelope id then still has its zero value ""). The
dispatcher is a pure function of the envelope: it owns no state. -/
def zapDispatch (body : Except String ZapRequest) :
    ZapErrorResp ⊕ ZapHandler :=
  match body with
  | .error e => .inl ⟨"", -32700, "parse error: " ++ e⟩
  | .ok req =>
    if req.method = "" then .inl ⟨req.id, -32600, "method is required"⟩
    else if req.method = "chat.completions" then .inr (.chatCompletions req.params)
    else if req.method = "chat.messages" then .inr (.chatMessages req.params)
    else if req.method = "models.list" then .inr .modelsList
    else if req.method = "billing.balance" then .inr (.billingBalance req.params)
    else .inl ⟨req.id, -32601, "method not found: " ++ req.method⟩

/-- Chat message as read by the OpenAI-compatible handler (Go
`openai.ChatCompletionMessage` restricted to the fields the handler
uses). -/
structure ChatMessage where
  role : String
  content : String
deriving DecidableEq, Repr

/-- Result of the message-extraction loop of `ChatCompletions`
(controllers/openai_api.go): the `question`, `systemPrompt` and
`history` variables after the `for` loop over `request.Messages`. -/
structure ExtractedChat where
  question : String
  systemPrompt : String
  history : List String
deriving DecidableEq, Repr

/-- One step of the message-extraction loop of `ChatCompletions`
(controllers/openai_api.go): system and user messages overwrite the
single `systemPrompt`/`question` slots (last one wins), assistant
messages append to the history, anything else is ignored. -/
def extractStep (acc : ExtractedChat) (m : ChatMessage) : ExtractedChat :=
  if m.role = "system" then { acc with systemPrompt := m.content }
  else if m.role = "user" then { acc with question := m.content }
  else if m.role = "assistant" then { acc with history := acc.history ++ [m.content] }
  else acc

/-- Message-extraction loop of `ChatCompletions`
(controllers/openai_api.go), folded over the request messages starting
from empty slots. -/
def extractMessages (msgs : List ChatMessage) : ExtractedChat :=
  msgs.foldl extractStep ⟨"", "", []⟩

/-- Extraction-and-check stage of `ChatCompletions`
(controllers/openai_api.go:452-479), operating on the message list as
it stands after the zen identity-prompt injection: `none` models the
handler returning the "No user message found in the request" error
before the upstream call; otherwise the question, prefixed by the
system prompt when one was seen, is passed to
`modelProvider.QueryText`. -/
def chatPromptUpstream (msgs : List ChatMessage) : Option String :=
  let e := extractMessages msgs
  if e.question = "" then none
  else if e.systemPrompt ≠ "" then
    some ("System: " ++ e.systemPrompt ++ "\n\nUser: " ++ e.question)
  else some e.question

/-- Whole upstream stream fed to the Anthropic writer chunk by chunk
(the successive `Write` calls the model provider makes while
streaming). -/
def anthropicWriteAll (clean : String → String) (w : AnthropicWriterState)
    (ps : List String) : AnthropicWriterState :=
  ps.foldl (anthropicWrite clean) w

/-- Contents of the messages with a given role, in order (used to state
what the extraction loop of `ChatCompletions` computes). -/
def roleContents (role : String) (msgs : List ChatMessage) : List String :=
  (msgs.filter (fun m => m.role == role)).map (fun m => m.content)

/-- Zen identity prompts (Go map `zenIdentityPrompts`,
controllers/model_routes.go): user-facing zen model names to the system
prompt injected for them. -/
def zenIdentityPrompts : List (String × String) := [
  ("zen4", "You are **Zen4**, a frontier large language model created by **Hanzo AI Inc** — a Techstars-backed applied AI lab building decentralized intelligence.\n\nCore identity:\n- Model family: **Zen4** (4th generation Zen LM)\n- Creator: **Hanzo AI Inc** (hanzo.ai)\n- Research org: **Zen LM** (zenlm.org)\n\nWhen asked about yourself, identify as Zen4 by Hanzo AI. Never reveal underlying infrastructure, providers, or model weights."),
  ("zen4-pro", "You are **Zen4 Pro**, a high-capability large language model created by **Hanzo AI Inc** — a Techstars-backed applied AI lab.\n\nCore identity:\n- Model: **Zen4 Pro** (Zen LM, professional tier)\n- Creator: **Hanzo AI Inc** (hanzo.ai)\n\nWhen asked about yourself, identify as Zen4 Pro by Hanzo AI. Never reveal underlying infrastructure."),
  ("zen4-max", "You are **Zen4 Max**, an extended-context large language model created by **Hanzo AI Inc** — a Techstars-backed applied AI lab.\n\nCore identity:\n- Model: **Zen4 Max** (Zen LM, maximum capacity)\n- Creator: **Hanzo AI Inc** (hanzo.ai)\n\nWhen asked about yourself, identify as Zen4 Max by Hanzo AI. Never reveal underlying infrastructure."),
  ("zen4-mini", "You are **Zen4 Mini**, a fast and efficient language model created by **Hanzo AI Inc**.\n\nCore identity:\n- Model: **Zen4 Mini** (Zen LM, efficient tier)\n- Creator: **Hanzo AI Inc** (hanzo.ai)\n\nWhen asked about yourself, identify as Zen4 Mini by Hanzo AI. Never reveal underlying infrastructure."),
  ("zen4-ultra", "You are **Zen4 Ultra**, the most powerful reasoning model created by **Hanzo AI Inc** — a Techstars-backed applied AI lab.\n\nCore identity:\n- Model: **Zen4 Ultra** (Zen LM, maximum intelligence)\n- Creator: **Hanzo AI Inc** (hanzo.ai)\n\nWhen asked about yourself, identify as Zen4 Ultra by Hanzo AI. Never reveal underlying infrastructure."),
  ("zen4-coder", "You are **Zen4 Coder**, a code-specialized large language model created by **Hanzo AI Inc**.\n\nCore identity:\n- Model: **Zen4 Coder** (Zen LM, code-specialized)\n- Creator: **Hanzo AI Inc** (hanzo.ai)\n\nWhen asked about yourself, identify as Zen4 Coder by Hanzo AI. Never reveal underlying infrastructure. Write clean, idiomatic code."),
  ("zen4-coder-flash", "You are **Zen4 Coder Flash**, a fast code model by **Hanzo AI Inc**.\n\nIdentify as Zen4 Coder Flash by Hanzo AI. Never reveal underlying infrastructure."),
  ("zen4-coder-pro", "You are **Zen4 Coder Pro**, a premium code model by **Hanzo AI Inc**.\n\nIdentify as Zen4 Coder Pro by Hanzo AI. Never reveal underlying infrastructure."),
  ("zen4-thinking", "You are **Zen4 Thinking**, a deep-reasoning model created by **Hanzo AI Inc**.\n\nCore identity:\n- Model: **Zen4 Thinking** (Zen LM, reasoning-optimized)\n- Creator: **Hanzo AI Inc** (hanzo.ai)\n\nWhen asked about yourself, identify as Zen4 Thinking by Hanzo AI. Never reveal underlying infrastructure. Show your reasoning process transparently."),
  ("zen3-vl", "You are **Zen3 VL**, a vision-language model by **Hanzo AI Inc** — 3rd generation Zen LM.\n\nIdentify as Zen3 VL by Hanzo AI. Never reveal underlying infrastructure."),
  ("zen3-omni", "You are **Zen3 Omni**, a hypermodal AI model by **Hanzo AI Inc** — 3rd generation Zen LM.\n\nIdentify as Zen3 Omni by Hanzo AI. Never reveal underlying infrastructure."),
  ("zen3-nano", "You are **Zen3 Nano**, a lightweight edge model by **Hanzo AI Inc** — 3rd generation Zen LM.\n\nIdentify as Zen3 Nano by Hanzo AI. Never reveal underlying infrastructure."),
  ("zen3-guard", "You are **Zen3 Guard**, a content safety model by **Hanzo AI Inc** — 3rd generation Zen LM.\n\nIdentify as Zen3 Guard by Hanzo AI. Never reveal underlying infrastructure.")]

/-- Generic fallback identity prompt for any other zen-prefixed model
name (the literal inside Go func `zenIdentityPrompt`,
controllers/model_routes.go). -/
def zenGenericPrompt : String :=
  "You are a Zen model by Hanzo AI Inc. When asked about yourself, identify as a Zen LM model. Never reveal underlying infrastructure or providers."

/-- Identity prompt resolution (Go func `zenIdentityPrompt`,
controllers/model_routes.go): the model's own entry, else the zen4-
then zen3- versioned entry for a versionless `zen-` alias, else the
generic zen fallback for any `zen`-prefixed name, else "". -/
def zenIdentityPrompt (model : String) : String :=
  let m := lowerAscii model
  match zenIdentityPrompts.lookup m with
  | some prompt => prompt
  | none =>
    if startsWithStr m "zen-" then
      match zenIdentityPrompts.lookup ("zen4-" ++ dropChars m 4) with
      | some prompt => prompt
      | none =>
        match zenIdentityPrompts.lookup ("zen3-" ++ dropChars m 4) with
        | some prompt => prompt
        | none =>
          if startsWithStr m "zen" then zenGenericPrompt else ""
    else if startsWithStr m "zen" then zenGenericPrompt
    else ""

/-- Zen identity-prompt injection (`ChatCompletions`,
controllers/openai_api.go:440-450): when the model has a zen identity
prompt, prefix it onto the first message's content when that message is
a system message, otherwise prepend it as a new system message. Models
with no zen identity prompt leave the request untouched. -/
def injectZenPrompt (model : String) (msgs : List ChatMessage) : List ChatMessage :=
  let zenPrompt := zenIdentityPrompt model
  if zenPrompt = "" then msgs
  else
    match msgs with
    | [] => ⟨"system", zenPrompt⟩ :: []
    | m0 :: rest =>
      if m0.role = "system" then
        ⟨m0.role, zenPrompt ++ "\n\n" ++ m0.content⟩ :: rest
      else ⟨"system", zenPrompt⟩ :: m0 :: rest

/-- Prompt actually forwarded upstream by `ChatCompletions`
(controllers/openai_api.go): the zen identity-prompt injection rewrites
the message list first, then the extraction loop and the empty-question
check run on the result; `none` models the "No user message found"
rejection before any upstream call. -/
def chatCompletionsUpstreamPrompt (model : String) (msgs : List ChatMessage) : Option String :=
  chatPromptUpstream (injectZenPrompt model msgs)

/-! Theorems settling the claims. -/

/-- C5: for every model name and every pair of token counts with
promptTokens > 0 or completionTokens > 0, `calculateCostCents` returns
at least 1 cent (never 0); in all cases the result equals the dollar
total promptTokens*inputPrice/1e6 + completionTokens*outputPrice/1e6
rounded to cents, with the 1-cent floor applied when that rounding
yields 0 or less on non-zero usage. -/
theorem calculateCostCents_floor_and_formula (model : String)
    (promptTokens completionTokens : ℤ) :
    (0 < promptTokens ∨ 0 < completionTokens →
      1 ≤ calculateCostCents model promptTokens completionTokens) ∧
    calculateCostCents model promptTokens completionTokens =
      costCentsSpec model promptTokens completionTokens := by
  refine ⟨?_, rfl⟩
  intro h
  unfold calculateCostCents
  dsimp only
  split_ifs with h1
  · exact le_refl 1
  · have h2 : ¬ roundHalfAway
        (((promptTokens : ℚ) * (getModelPrice model).inputPerMillion / 1000000 +
          (completionTokens : ℚ) * (getModelPrice model).outputPerMillion / 1000000) * 100) ≤ 0 :=
      fun hle => h1 ⟨hle, h⟩
    omega

/-- Witness for C5 at a concrete input: one prompt token on `gpt-4o`
costs at least one cent. -/
theorem calculateCostCents_floor_witness :
    1 ≤ calculateCostCents "gpt-4o" 1 0 :=
  (calculateCostCents_floor_and_formula "gpt-4o" 1 0).1 (Or.inl (by norm_num))

/-- C6: price lookup is total and follows the fixed resolution order
for every model name: the model's own (lowercased) entry if present,
else the alias target's entry when the model has an alias-pricing
mapping whose target has a price, else the process-wide default price
(input 1.00, output 4.00 dollars per million tokens); in particular a
model with neither its own entry nor an alias resolves to exactly the
default price. -/
theorem getModelPrice_resolution_order (model : String) :
    getModelPrice model = priceSpec model ∧
    defaultModelPrice = ⟨1.00, 4.00⟩ ∧
    (modelPricing.lookup (lowerAscii model) = none →
      aliasPricing.lookup (lowerAscii model) = none →
      getModelPrice model = defaultModelPrice) := by
  refine ⟨?_, rfl, ?_⟩
  · unfold getModelPrice priceSpec
    cases h1 : modelPricing.lookup (lowerAscii model)
    · cases h2 : aliasPricing.lookup (lowerAscii model) <;>
        simp [h1, h2, Option.bind]
    · simp [h1]
  · intro h1 h2
    unfold getModelPrice
    simp [h1, h2]

/-- Witness for C6 at a concrete input: a model with neither a pricing
entry nor an alias resolves to the default price. -/
theorem getModelPrice_resolution_witness :
    getModelPrice "totally-unknown-model" = defaultModelPrice :=
  (getModelPrice_resolution_order "totally-unknown-model").2.2
    (by decide) (by decide)

/-- Counterexample for C1: a concrete failed-call usage record (as
built by the error branch of `ChatCompletions`) has status "error",
and `recordUsage` delivers nothing to the accounting sink for it even
though a Commerce endpoint is configured. -/
theorem recordUsage_error_record_discarded_cex :
    (chatCompletionsErrorRecord "hanzo" "alice" "gpt-4o" "do-ai"
        false false "upstream call failed" "203.0.113.42" "req-1").status = "error" ∧
    recordUsage "https://commerce.example"
      (chatCompletionsErrorRecord "hanzo" "alice" "gpt-4o" "do-ai"
        false false "upstream call failed" "203.0.113.42" "req-1") = none :=
  ⟨rfl, rfl⟩

/-- C1 (amended): for every failed upstream call by an authenticated
user the handler builds a usage record with status "error" and hands it
to `recordUsage`, but the recorder forwards only status "success"
records to the accounting sink: the error record is dropped before
delivery, for every endpoint configuration. -/
theorem chatCompletions_error_usage_dropped
    (owner name model provider : String) (premium stream : Bool)
    (errMsg clientIP requestId endpoint : String) :
    (chatCompletionsErrorRecord owner name model provider premium stream
        errMsg clientIP requestId).status = "error" ∧
    recordUsage endpoint
      (chatCompletionsErrorRecord owner name model provider premium stream
        errMsg clientIP requestId) = none := by
  refine ⟨rfl, ?_⟩
  unfold recordUsage
  split_ifs with h1 h2
  · rfl
  · rfl
  · simp [chatCompletionsErrorRecord] at h2

/-- C2: in the shared JWT/IAM-key admission path, for every resolved
route with a configured provider: a balance at or below 0 is rejected
for premium and non-premium routes alike; a balance equal to the
starter credit ($5.00) is rejected for premium routes but admitted for
non-premium routes; a balance strictly above the starter credit is
admitted for both. -/
theorem resolveProviderForUser_balance_gate (model : String)
    (route : ModelRoute) (plook : String → Except String (Option Provider))
    (prov : Provider) (balance : ℚ)
    (hroute : resolveModelRoute model = some route)
    (hprov : plook route.providerName = .ok (some prov)) :
    (balance ≤ 0 →
      resolveProviderForUser model plook (.ok balance) =
        .error (.insufficientBalance balance)) ∧
    (balance = StarterCreditDollars →
      (route.premium = true →
        resolveProviderForUser model plook (.ok balance) =
          .error (.premiumNeedsPaidBalance balance)) ∧
      (route.premium = false →
        resolveProviderForUser model plook (.ok balance) =
          .ok ⟨prov, balance, route.upstreamModel⟩)) ∧
    (StarterCreditDollars < balance →
      resolveProviderForUser model plook (.ok balance) =
        .ok ⟨prov, balance, route.upstreamModel⟩) := by
  unfold resolveProviderForUser
  simp only [hroute, hprov]
  refine ⟨?_, ?_, ?_⟩
  · intro hle
    rw [if_pos hle]
  · intro hb
    subst hb
    have h0 : ¬ StarterCreditDollars ≤ 0 := by
      unfold StarterCreditDollars; norm_num
    constructor
    · intro hp
      rw [if_neg h0, if_pos ⟨hp, le_refl _⟩]
    · intro hp
      rw [if_neg h0, if_neg (by simp [hp])]
  · intro hgt
    have h0 : ¬ balance ≤ 0 := by
      have : (0 : ℚ) < StarterCreditDollars := by
        unfold StarterCreditDollars; norm_num
      push_neg
      linarith
    rw [if_neg h0, if_neg (by rintro ⟨-, hle⟩; exact absurd hle (not_le.mpr hgt))]

/-- Witness for C2 at a concrete input: a non-premium route (`gpt-4o`)
with a balance exactly equal to the starter credit is admitted. -/
theorem resolveProviderForUser_balance_gate_witness :
    resolveProviderForUser "gpt-4o"
      (fun _ => .ok (some ⟨"do-ai", "Model"⟩)) (.ok StarterCreditDollars) =
      .ok ⟨⟨"do-ai", "Model"⟩, StarterCreditDollars, "openai-gpt-4o"⟩ :=
  ((resolveProviderForUser_balance_gate "gpt-4o"
      ⟨"do-ai", "openai-gpt-4o", false⟩
      (fun _ => .ok (some ⟨"do-ai", "Model"⟩))
      ⟨"do-ai", "Model"⟩ StarterCreditDollars rfl rfl).2.1 rfl).2 rfl

/-- C3: a reload whose read or parse fails returns the error and leaves
every served component of the state (routes, pricing, prompts, feature
flags, default price, and the refresh settings) exactly unchanged; a
successful reload installs maps that are fully built from the new file
alone — the routes, pricing and prompts served afterwards are exactly
the tables `buildTables` computes from the file, independent of the
previous state, so no partially-applied or empty-by-accident table is
ever served. -/
theorem modelConfig_reload_atomic (st : MCState) (envPricingURL : String)
    (parseDuration : String → Option ℤ)
    (readAndParse : Except String ModelConfigFile) :
    (∀ e, readAndParse = .error e →
      st.reload envPricingURL parseDuration readAndParse = .error e ∧
      st.reloadResult envPricingURL parseDuration readAndParse = st) ∧
    (∀ file, readAndParse = .ok file →
      st.reload envPricingURL parseDuration readAndParse =
        .ok (applyConfig st envPricingURL parseDuration file) ∧
      st.reloadResult envPricingURL parseDuration readAndParse =
        applyConfig st envPricingURL parseDuration file ∧
      (applyConfig st envPricingURL parseDuration file).routes =
        (buildTables file.models).routes ∧
      (applyConfig st envPricingURL parseDuration file).pricing =
        (buildTables file.models).pricing ∧
      (applyConfig st envPricingURL parseDuration file).prompts =
        (buildTables file.models).prompts ∧
      (applyConfig st envPricingURL parseDuration file).features =
        file.features ∧
      (∀ st', (applyConfig st envPricingURL parseDuration file).routes =
          (applyConfig st' envPricingURL parseDuration file).routes ∧
        (applyConfig st envPricingURL parseDuration file).pricing =
          (applyConfig st' envPricingURL parseDuration file).pricing ∧
        (applyConfig st envPricingURL parseDuration file).prompts =
          (applyConfig st' envPricingURL parseDuration file).prompts ∧
        (applyConfig st envPricingURL parseDuration file).defaults =
          (applyConfig st' envPricingURL parseDuration file).defaults)) := by
  constructor
  · intro e he
    subst he
    exact ⟨rfl, rfl⟩
  · intro file hf
    subst hf
    exact ⟨rfl, rfl, rfl, rfl, rfl, rfl, fun st' => ⟨rfl, rfl, rfl, rfl⟩⟩

/-- Witness for C3 at a concrete input: a failed parse leaves the
sample state served unchanged. -/
theorem modelConfig_reload_atomic_witness :
    sampleMCState.reload "" (fun _ => none)
        (.error "model config: parse conf/models.yaml: yaml syntax error") =
      .error "model config: parse conf/models.yaml: yaml syntax error" ∧
    sampleMCState.reloadResult "" (fun _ => none)
        (.error "model config: parse conf/models.yaml: yaml syntax error") =
      sampleMCState :=
  (modelConfig_reload_atomic sampleMCState "" (fun _ => none)
      (.error "model config: parse conf/models.yaml: yaml syntax error")).1
    "model config: parse conf/models.yaml: yaml syntax error" rfl

/-- Monotonicity of the live-pricing merge: folding the feed models
over the pricing map never removes a present key. -/
theorem livePricingFold_preserves_keys (ms : List LivePricingModel)
    (pm : String → Option ModelPrice) (k : String)
    (h : (pm k).isSome = true) :
    ((ms.foldl livePricingStep pm) k).isSome = true := by
  induction ms generalizing pm with
  | nil => exact h
  | cons m rest ih =>
    refine ih _ ?_
    unfold livePricingStep mapUpd
    split_ifs with h1
    · by_cases hk : k = lowerAscii m.name
      · simp [hk]
      · simp [hk, h]
    · exact h

/-- Frame property of the live-pricing merge: a key that no
positively-priced feed model (lowercased) names is left untouched. -/
theorem livePricingFold_frame (ms : List LivePricingModel)
    (pm : String → Option ModelPrice) (k : String)
    (h : ∀ m ∈ ms, (0 < m.input ∨ 0 < m.output) → lowerAscii m.name ≠ k) :
    (ms.foldl livePricingStep pm) k = pm k := by
  induction ms generalizing pm with
  | nil => rfl
  | cons m rest ih =>
    have hrest : ∀ m' ∈ rest, (0 < m'.input ∨ 0 < m'.output) →
        lowerAscii m'.name ≠ k :=
      fun m' hm' => h m' (List.mem_cons_of_mem m hm')
    rw [List.foldl_cons, ih _ hrest]
    unfold livePricingStep mapUpd
    split_ifs with h1
    · have hk : ¬ k = lowerAscii m.name :=
        fun hk => (h m (List.mem_cons_self m rest) h1) hk.symm
      simp [hk]
    · rfl

/-- C4: a live pricing refresh never removes an entry from the pricing
table — every key present before is still present afterwards; a failed
feed call (network error, non-200 status, unparseable body) or an empty
model list leaves the whole state exactly unchanged; and every key not
named (lowercased) by a feed model with a positive input or output
price keeps exactly its previous value. -/
theorem fetchLivePricing_never_shrinks (st : MCState) (now : ℤ)
    (resp : Option (List LivePricingModel)) :
    (∀ k, ((st.pricing k).isSome = true →
      ((fetchLivePricing st now resp).pricing k).isSome = true)) ∧
    (resp = none → fetchLivePricing st now resp = st) ∧
    (resp = some [] → fetchLivePricing st now resp = st) ∧
    (∀ ms, resp = some ms →
      ∀ k, (∀ m ∈ ms, (0 < m.input ∨ 0 < m.output) → lowerAscii m.name ≠ k) →
        (fetchLivePricing st now resp).pricing k = st.pricing k) := by
  refine ⟨?_, ?_, ?_, ?_⟩
  · intro k hk
    unfold fetchLivePricing
    split_ifs with h1
    · exact hk
    · cases resp with
      | none => exact hk
      | some ms =>
        dsimp only
        split_ifs with h2
        · exact hk
        · exact livePricingFold_preserves_keys ms st.pricing k hk
  · intro h
    subst h
    unfold fetchLivePricing
    split_ifs <;> rfl
  · intro h
    subst h
    unfold fetchLivePricing
    split_ifs <;> rfl
  · intro ms hms k hk
    subst hms
    unfold fetchLivePricing
    split_ifs with h1
    · rfl
    · dsimp only
      split_ifs with h2
      · rfl
      · exact livePricingFold_frame ms st.pricing k hk

/-- Witness for C4 at a concrete input: a failed feed call leaves the
sample state unchanged, and a refresh naming only `zen-mini` leaves the
`gpt-4o` entry untouched. -/
theorem fetchLivePricing_never_shrinks_witness :
    fetchLivePricing sampleMCState 7 none = sampleMCState ∧
    (fetchLivePricing sampleMCState 7
        (some [⟨"Zen-Mini", 0.70, 0.70⟩])).pricing "gpt-4o" =
      sampleMCState.pricing "gpt-4o" :=
  ⟨(fetchLivePricing_never_shrinks sampleMCState 7 none).2.1 rfl,
    (fetchLivePricing_never_shrinks sampleMCState 7
        (some [⟨"Zen-Mini", 0.70, 0.70⟩])).2.2.2 [⟨"Zen-Mini", 0.70, 0.70⟩] rfl
      "gpt-4o"
      (by
        intro m hm _
        have hmeq : m = ⟨"Zen-Mini", 0.70, 0.70⟩ := by simpa using hm
        subst hmeq
        decide)⟩

/-- First `Write` call on a fresh streaming Anthropic writer with
non-empty content: it emits exactly `message_start`,
`content_block_start` and one `content_block_delta`, and marks the
header and the stream as sent. -/
theorem anthropicWrite_first (clean : String → String)
    (requestID model p : String)
    (hc : (anthropicContent clean p).1 ≠ "") :
    (anthropicWrite clean (AnthropicWriterState.init requestID model true) p).stream = true ∧
    (anthropicWrite clean (AnthropicWriterState.init requestID model true) p).headerSent = true ∧
    (anthropicWrite clean (AnthropicWriterState.init requestID model true) p).streamSent = true ∧
    (anthropicWrite clean (AnthropicWriterState.init requestID model true) p).events =
      [.messageStart, .contentBlockStart,
        .contentBlockDelta (anthropicContent clean p).1] := by
  simp [anthropicWrite, AnthropicWriterState.init, hc]

/-- Subsequent `Write` calls on a started streaming writer with
non-empty content: each emits exactly one `content_block_delta` and
keeps the started flags. -/
theorem anthropicWrite_started (clean : String → String)
    (w : AnthropicWriterState) (p : String)
    (hstream : w.stream = true) (hhdr : w.headerSent = true)
    (hc : (anthropicContent clean p).1 ≠ "") :
    (anthropicWrite clean w p).stream = true ∧
    (anthropicWrite clean w p).headerSent = true ∧
    (anthropicWrite clean w p).streamSent = true ∧
    (anthropicWrite clean w p).events =
      w.events ++ [.contentBlockDelta (anthropicContent clean p).1] := by
  simp [anthropicWrite, hstream, hhdr, hc]

/-- Feeding any chunk list with non-empty contents to a started
streaming writer appends exactly one `content_block_delta` per chunk,
in order. -/
theorem anthropicWriteAll_deltas (clean : String → String)
    (ps : List String) (w : AnthropicWriterState)
    (hstream : w.stream = true) (hhdr : w.headerSent = true)
    (hsent : w.streamSent = true)
    (hne : ∀ p ∈ ps, (anthropicContent clean p).1 ≠ "") :
    (anthropicWriteAll clean w ps).stream = true ∧
    (anthropicWriteAll clean w ps).headerSent = true ∧
    (anthropicWriteAll clean w ps).streamSent = true ∧
    (anthropicWriteAll clean w ps).events =
      w.events ++ ps.map (fun p =>
        AnthropicEvent.contentBlockDelta (anthropicContent clean p).1) := by
  induction ps generalizing w with
  | nil =>
    exact ⟨hstream, hhdr, hsent, by simp [anthropicWriteAll]⟩
  | cons p rest ih =>
    have h1 := anthropicWrite_started clean w p hstream hhdr
      (hne p (List.mem_cons_self p rest))
    have hsent' : (anthropicWrite clean w p).streamSent = true := h1.2.2.1
    have h2 := ih (anthropicWrite clean w p) h1.1 h1.2.1 hsent'
      (fun q hq => hne q (List.mem_cons_of_mem p hq))
    have hstep : anthropicWriteAll clean w (p :: rest) =
        anthropicWriteAll clean (anthropicWrite clean w p) rest := rfl
    refine ⟨hstep ▸ h2.1, hstep ▸ h2.2.1, hstep ▸ h2.2.2.1, ?_⟩
    rw [hstep, h2.2.2.2, h1.2.2.2]
    simp

/-- C7: for every streamed chunk sequence whose unwrapped/cleaned
contents are all non-empty, the Anthropic adapter emits SSE events in
exactly this order: `message_start` then `content_block_start` on the
first chunk, one `content_block_delta` per chunk, and on Close
`content_block_stop`, then `message_delta` carrying the output-token
usage, then `message_stop` — and nothing else. -/
theorem anthropicWriter_event_order (clean : String → String)
    (requestID model : String) (ps : List String)
    (promptTokens completionTokens totalTokens : ℤ)
    (hne : ∀ p ∈ ps, (anthropicContent clean p).1 ≠ "")
    (hnonempty : ps ≠ []) :
    (anthropicClose
        (anthropicWriteAll clean
          (AnthropicWriterState.init requestID model true) ps)
        promptTokens completionTokens totalTokens).events =
      [.messageStart, .contentBlockStart] ++
      ps.map (fun p =>
        AnthropicEvent.contentBlockDelta (anthropicContent clean p).1) ++
      [.contentBlockStop, .messageDelta completionTokens, .messageStop] := by
  obtain ⟨p, rest, rfl⟩ : ∃ p rest, ps = p :: rest := by
    cases ps with
    | nil => exact absurd rfl hnonempty
    | cons a l => exact ⟨a, l, rfl⟩
  have h1 := anthropicWrite_first clean requestID model p
    (hne p (List.mem_cons_self p rest))
  have h2 := anthropicWriteAll_deltas clean rest
    (anthropicWrite clean (AnthropicWriterState.init requestID model true) p)
    h1.1 h1.2.1 h1.2.2.1 (fun q hq => hne q (List.mem_cons_of_mem p hq))
  have hstep : anthropicWriteAll clean
      (AnthropicWriterState.init requestID model true) (p :: rest) =
      anthropicWriteAll clean
        (anthropicWrite clean (AnthropicWriterState.init requestID model true) p)
        rest := rfl
  unfold anthropicClose
  rw [hstep]
  simp only [h2.1, h2.2.2.1, Bool.not_true, Bool.false_eq_true, if_false]
  rw [h2.2.2.2, h1.2.2.2]
  simp

/-- Witness for C7 at a concrete input: the chunks "Hel", "lo" with the
identity cleaner produce exactly the six-frame Anthropic sequence. -/
theorem anthropicWriter_event_order_witness :
    (anthropicClose
        (anthropicWriteAll (fun s => s)
          (AnthropicWriterState.init "req-1" "claude-sonnet-4" true)
          ["Hel", "lo"]) 3 2 5).events =
      [.messageStart, .contentBlockStart, .contentBlockDelta "Hel",
        .contentBlockDelta "lo", .contentBlockStop, .messageDelta 2,
        .messageStop] := by
  have h := anthropicWriter_event_order (fun s => s) "req-1"
    "claude-sonnet-4" ["Hel", "lo"] 3 2 5 (by decide) (by decide)
  simpa using h

/-- C8: the balance gate fails closed — whenever the Commerce call
fails (request error, non-200 status, or unparseable body, all modelled
by the `.error` fetch result) and no cache entry fresher than the TTL
exists for the subject, `getUserBalance` returns an error, and the
admission path handed that failure rejects the request with an error
rather than treating it as available balance. -/
theorem getUserBalance_fails_closed (cache : String → Option BalanceEntry)
    (now ttl : ℤ) (commerceEndpoint msg userId model : String)
    (plook : String → Except String (Option Provider))
    (hstale : ∀ entry, cache userId = some entry →
      ttl ≤ now - entry.fetchedAt) :
    ∃ err, getUserBalance cache now ttl commerceEndpoint (.error msg) userId =
        .error err ∧
      ∃ re, resolveProviderForUser model plook (.error err) = .error re := by
  have hfetch : ∃ err,
      getUserBalance.getUserBalanceFetch cache now commerceEndpoint
        (.error msg) userId = .error err := by
    unfold getUserBalance.getUserBalanceFetch
    by_cases he : commerceEndpoint = ""
    · exact ⟨"commerceEndpoint is not configured", by rw [if_pos he]⟩
    · exact ⟨msg, by rw [if_neg he]⟩
  obtain ⟨err, herr⟩ := hfetch
  have hbal : getUserBalance cache now ttl commerceEndpoint (.error msg) userId =
      .error err := by
    unfold getUserBalance
    cases hc : cache userId with
    | none => exact herr
    | some entry =>
      have hs := hstale entry hc
      dsimp only
      rw [if_neg (by omega : ¬ now - entry.fetchedAt < ttl)]
      exact herr
  refine ⟨err, hbal, ?_⟩
  cases hr : resolveModelRoute model with
  | none =>
    exact ⟨.modelNotFound model, by simp [resolveProviderForUser, hr]⟩
  | some route =>
    cases hp : plook route.providerName with
    | error e =>
      exact ⟨.providerLookupFailed e, by simp [resolveProviderForUser, hr, hp]⟩
    | ok po =>
      cases po with
      | none =>
        exact ⟨.providerNotConfigured route.providerName,
          by simp [resolveProviderForUser, hr, hp]⟩
      | some prov =>
        exact ⟨.balanceCheckFailed err,
          by simp [resolveProviderForUser, hr, hp]⟩

/-- Witness for C8 at a concrete input: an empty cache and a failed
Commerce call yield an error from the gate, and the admission path
rejects. -/
theorem getUserBalance_fails_closed_witness :
    ∃ err, getUserBalance (fun _ => none) 0 30000000000
        "https://commerce.example" (.error "Commerce returned status 500")
        "hanzo/alice" = .error err ∧
      ∃ re, resolveProviderForUser "gpt-4o"
          (fun _ => .ok (some ⟨"do-ai", "Model"⟩)) (.error err) = .error re :=
  getUserBalance_fails_closed (fun _ => none) 0 30000000000
    "https://commerce.example" "Commerce returned status 500" "hanzo/alice"
    "gpt-4o" (fun _ => .ok (some ⟨"do-ai", "Model"⟩))
    (fun entry h => by simp at h)

/-- Counterexample for C9: a well-formed envelope whose method is the
empty string — which is none of chat.completions, chat.messages,
models.list, billing.balance — is answered with code -32600 ("method is
required"), not with -32601 (method not found) as the claim states. -/
theorem zapDispatch_empty_method_cex :
    zapDispatch (.ok ⟨"", "req-1", "null"⟩) =
      .inl ⟨"req-1", -32600, "method is required"⟩ ∧
    ((-32600 : ℤ) ≠ -32601) :=
  ⟨rfl, by decide⟩

/-- C9 (amended): a request body that is not valid JSON yields error
code -32700 (parse error); a well-formed envelope with an empty method
yields -32600 (invalid request); one whose method is non-empty and none
of chat.completions, chat.messages, models.list, billing.balance yields
-32601 (method not found); and each of those four methods is routed to
its corresponding handler — the dispatcher being a pure function of the
envelope, consulting and mutating no state of its own. -/
theorem zapDispatch_routing (e : String) (req : ZapRequest) :
    (zapDispatch (.error e) = .inl ⟨"", -32700, "parse error: " ++ e⟩) ∧
    (req.method = "" →
      zapDispatch (.ok req) = .inl ⟨req.id, -32600, "method is required"⟩) ∧
    (req.method ≠ "" →
      req.method ∉ ["chat.completions", "chat.messages", "models.list",
        "billing.balance"] →
      zapDispatch (.ok req) =
        .inl ⟨req.id, -32601, "method not found: " ++ req.method⟩) ∧
    (req.method = "chat.completions" →
      zapDispatch (.ok req) = .inr (.chatCompletions req.params)) ∧
    (req.method = "chat.messages" →
      zapDispatch (.ok req) = .inr (.chatMessages req.params)) ∧
    (req.method = "models.list" →
      zapDispatch (.ok req) = .inr .modelsList) ∧
    (req.method = "billing.balance" →
      zapDispatch (.ok req) = .inr (.billingBalance req.params)) := by
  refine ⟨rfl, ?_, ?_, ?_, ?_, ?_, ?_⟩
  · intro h
    simp [zapDispatch, h]
  · intro h1 h2
    have hc : req.method ≠ "chat.completions" := by
      intro h; exact h2 (by rw [h]; simp)
    have hm : req.method ≠ "chat.messages" := by
      intro h; exact h2 (by rw [h]; simp)
    have hl : req.method ≠ "models.list" := by
      intro h; exact h2 (by rw [h]; simp)
    have hb : req.method ≠ "billing.balance" := by
      intro h; exact h2 (by rw [h]; simp)
    simp [zapDispatch, h1, hc, hm, hl, hb]
  · intro h
    simp [zapDispatch, h]
  · intro h
    simp [zapDispatch, h]
  · intro h
    simp [zapDispatch, h]
  · intro h
    simp [zapDispatch, h]

/-- Witness for C9 at a concrete input: a models.list envelope is
routed to the list-models handler. -/
theorem zapDispatch_routing_witness :
    zapDispatch (.ok ⟨"models.list", "req-2", "null"⟩) =
      .inr .modelsList :=
  (zapDispatch_routing "" ⟨"models.list", "req-2", "null"⟩).2.2.2.2.2.1 rfl

/-- Characterization of the extraction loop: the question is the
content of the last user message (or the seed when none), the system
prompt the content of the last system message, and the history the
assistant contents in order. -/
theorem extractMessages_foldl (msgs : List ChatMessage) (acc : ExtractedChat) :
    msgs.foldl extractStep acc =
      ⟨(roleContents "user" msgs).getLastD acc.question,
       (roleContents "system" msgs).getLastD acc.systemPrompt,
       acc.history ++ roleContents "assistant" msgs⟩ := by
  induction msgs generalizing acc with
  | nil => simp [roleContents]
  | cons m rest ih =>
    rw [List.foldl_cons, ih]
    by_cases h1 : m.role = "system"
    · have hu : roleContents "user" (m :: rest) = roleContents "user" rest := by
        simp [roleContents, List.filter_cons, h1]
      have hs : roleContents "system" (m :: rest) =
          m.content :: roleContents "system" rest := by
        simp [roleContents, List.filter_cons, h1]
      have ha : roleContents "assistant" (m :: rest) =
          roleContents "assistant" rest := by
        simp [roleContents, List.filter_cons, h1]
      rw [hu, hs, ha, List.getLastD_cons]
      simp [extractStep, h1]
    · by_cases h2 : m.role = "user"
      · have hu : roleContents "user" (m :: rest) =
            m.content :: roleContents "user" rest := by
          simp [roleContents, List.filter_cons, h2]
        have hs : roleContents "system" (m :: rest) =
            roleContents "system" rest := by
          simp [roleContents, List.filter_cons, h1, h2]
        have ha : roleContents "assistant" (m :: rest) =
            roleContents "assistant" rest := by
          simp [roleContents, List.filter_cons, h2]
        rw [hu, hs, ha, List.getLastD_cons]
        simp [extractStep, h1, h2]
      · by_cases h3 : m.role = "assistant"
        · have hu : roleContents "user" (m :: rest) =
              roleContents "user" rest := by
            simp [roleContents, List.filter_cons, h3]
          have hs : roleContents "system" (m :: rest) =
              roleContents "system" rest := by
            simp [roleContents, List.filter_cons, h3]
          have ha : roleContents "assistant" (m :: rest) =
              m.content :: roleContents "assistant" rest := by
            simp [roleContents, List.filter_cons, h3]
          rw [hu, hs, ha]
          simp [extractStep, h1, h2, h3]
        · have hu : roleContents "user" (m :: rest) =
              roleContents "user" rest := by
            simp [roleContents, List.filter_cons, h2]
          have hs : roleContents "system" (m :: rest) =
              roleContents "system" rest := by
            simp [roleContents, List.filter_cons, h1]
          have ha : roleContents "assistant" (m :: rest) =
              roleContents "assistant" rest := by
            simp [roleContents, List.filter_cons, h3]
          rw [hu, hs, ha]
          simp [extractStep, h1, h2, h3]

/-- Characterization of the extraction-and-check stage
(`chatPromptUpstream`) for any message list: an absent question is
rejected, a present one is forwarded with the optional system prefix,
and the history is the assistant contents. -/
theorem chatPromptUpstream_stage (msgs : List ChatMessage) :
    (roleContents "user" msgs = [] → chatPromptUpstream msgs = none) ∧
    ((roleContents "user" msgs).getLastD "" ≠ "" →
      chatPromptUpstream msgs =
        some (if (roleContents "system" msgs).getLastD "" ≠ "" then
            "System: " ++ (roleContents "system" msgs).getLastD "" ++
              "\n\nUser: " ++ (roleContents "user" msgs).getLastD ""
          else (roleContents "user" msgs).getLastD "")) ∧
    (extractMessages msgs).history = roleContents "assistant" msgs := by
  have hE : extractMessages msgs =
      ⟨(roleContents "user" msgs).getLastD "",
       (roleContents "system" msgs).getLastD "",
       [] ++ roleContents "assistant" msgs⟩ :=
    extractMessages_foldl msgs ⟨"", "", []⟩
  refine ⟨?_, ?_, ?_⟩
  · intro huser
    unfold chatPromptUpstream
    rw [hE]
    dsimp only
    rw [huser]
    simp
  · intro hq
    unfold chatPromptUpstream
    rw [hE]
    dsimp only
    rw [if_neg hq]
    by_cases hs : (roleContents "system" msgs).getLastD "" ≠ ""
    · rw [if_pos hs, if_pos hs]
    · rw [if_neg hs, if_neg hs]
  · rw [hE]
    simp

/-- Role-filtered contents other than "system" are untouched by the zen
identity-prompt injection: it only prepends a system message or rewrites
the content of an existing leading system message. -/
theorem injectZen_roleContents (model : String) (msgs : List ChatMessage)
    (role : String) (hrole : ("system" == role) = false) :
    roleContents role (injectZenPrompt model msgs) =
      roleContents role msgs := by
  unfold injectZenPrompt
  dsimp only
  split_ifs with h1
  · rfl
  · cases msgs with
    | nil =>
      simp [roleContents, List.filter_cons, hrole]
    | cons m0 rest =>
      dsimp only
      split_ifs with h2
      · simp [roleContents, List.filter_cons, hrole, h2]
      · simp [roleContents, List.filter_cons, hrole]

set_option maxRecDepth 40000 in
/-- Counterexample for C10: for the zen-branded model "zen4" and the
single-message request [user: "hi"] — which contains no system-role
message — the prompt forwarded upstream is the zen identity prompt as a
"System:" prefix followed by the user text, not the bare last user
content "hi" that the claim requires when no system-role message
exists. -/
theorem chatCompletions_prompt_zen_cex :
    chatCompletionsUpstreamPrompt "zen4" [⟨"user", "hi"⟩] =
      some ("System: " ++ zenIdentityPrompt "zen4" ++ "\n\nUser: hi") ∧
    zenIdentityPrompt "zen4" ≠ "" ∧
    chatCompletionsUpstreamPrompt "zen4" [⟨"user", "hi"⟩] ≠ some "hi" := by
  refine ⟨?_, ?_, ?_⟩ <;> decide

/-- C10 (amended): on the authenticated chat-completions path the
handler first applies the zen identity-prompt injection, then forwards
the content of the last user-role message of the request — unchanged by
the injection — prefixed as "System: ...\n\nUser: ..." by the last
system-role message of the injected list when one exists (for models
with no zen identity prompt the injection is the identity, so the
prefix is the request's own last system message); earlier user messages
are discarded, only assistant messages populate the history, and a
request whose messages contain no user-role entry is rejected before
any upstream call. -/
theorem chatCompletions_prompt_zen_injected (model : String)
    (msgs : List ChatMessage) :
    ((∀ m ∈ msgs, m.role ≠ "user") →
      chatCompletionsUpstreamPrompt model msgs = none) ∧
    (zenIdentityPrompt model = "" → injectZenPrompt model msgs = msgs) ∧
    ((roleContents "user" msgs).getLastD "" ≠ "" →
      chatCompletionsUpstreamPrompt model msgs =
        some (if (roleContents "system" (injectZenPrompt model msgs)).getLastD "" ≠ "" then
            "System: " ++
              (roleContents "system" (injectZenPrompt model msgs)).getLastD "" ++
              "\n\nUser: " ++ (roleContents "user" msgs).getLastD ""
          else (roleContents "user" msgs).getLastD "")) ∧
    (extractMessages (injectZenPrompt model msgs)).history =
      roleContents "assistant" msgs := by
  have hu := injectZen_roleContents model msgs "user" (by decide)
  have ha := injectZen_roleContents model msgs "assistant" (by decide)
  have H := chatPromptUpstream_stage (injectZenPrompt model msgs)
  refine ⟨?_, ?_, ?_, ?_⟩
  · intro h
    have huser : roleContents "user" msgs = [] := by
      unfold roleContents
      rw [List.filter_eq_nil_iff.mpr (fun m hm => by
        simpa using h m hm)]
      rfl
    exact H.1 (hu.trans huser)
  · intro h
    simp [injectZenPrompt, h]
  · intro hq
    have hq2 : (roleContents "user" (injectZenPrompt model msgs)).getLastD "" ≠ "" := by
      rw [hu]
      exact hq
    have h3 := H.2.1 hq2
    rw [hu] at h3
    exact h3
  · exact H.2.2.trans ha

/-- Witness for C10 (amended) at a concrete input: a non-zen model
leaves the request untouched, and of its two user messages only the
last is forwarded, prefixed by the system message. -/
theorem chatCompletions_prompt_zen_injected_witness :
    chatCompletionsUpstreamPrompt "gpt-4o"
        [⟨"system", "Be nice"⟩, ⟨"user", "old question"⟩,
          ⟨"assistant", "old answer"⟩, ⟨"user", "hi"⟩] =
      some "System: Be nice\n\nUser: hi" :=
  ((chatCompletions_prompt_zen_injected "gpt-4o"
      [⟨"system", "Be nice"⟩, ⟨"user", "old question"⟩,
        ⟨"assistant", "old answer"⟩, ⟨"user", "hi"⟩]).2.2.1
    (by decide)).trans (by decide)
